import Mathlib

/-!
Shallow embedding of `src/server/proxy/pf_config.c` (FreeRDP proxy server
configuration loader): scalar readers, section loaders, the assembler, the
query helpers, the cloner and the printer, together with theorems settling
the specification claims about them.

External collaborators (the wIniFile key/value store, the filesystem
existence check and the INI text parser) are modelled as abstract inputs;
the comma-separated list encoder/decoder of winpr/cmdline is modelled
concretely (split/join on ',', keeping empty tokens, no trimming), exactly
as `CommandLineParseCommaSeparatedValues` / `CommandLineToCommaSeparatedValues`
behave on the values this file feeds them.
-/

namespace PfConfig

/-- Abstract view of the external `wIniFile` store: `getString` models
`IniFile_GetKeyValueString` (NULL becomes `none`); `getInt` models
`IniFile_GetKeyValueInt` (which returns the integer reinterpretation of the
stored string, `0` for a missing or unparseable key). -/
structure IniStore where
  getString : String → String → Option String
  getInt : String → String → Int

/-- Abstract filesystem capability, modelling `winpr_PathFileExists`. -/
abbrev FileExists : Type := String → Bool

/-- Split a character list on ',' keeping empty tokens: the token structure of
`CommandLineParseCommaSeparatedValues` (count = number of commas + 1). -/
def splitCommaChars : List Char → List (List Char)
  | [] => [[]]
  | c :: rest =>
    if c = ',' then [] :: splitCommaChars rest
    else
      match splitCommaChars rest with
      | [] => [[c]]
      | t :: ts => (c :: t) :: ts

/-- Join character lists with ',' separators, as
`CommandLineToCommaSeparatedValues` does. -/
def joinCommaChars : List (List Char) → List Char
  | [] => []
  | [t] => t
  | t₁ :: t₂ :: ts => t₁ ++ ',' :: joinCommaChars (t₂ :: ts)

/-- Model of `CommandLineParseCommaSeparatedValues`. -/
def commandLineParseCommaSeparatedValues (s : String) : List String :=
  (splitCommaChars s.data).map String.mk

/-- Model of `CommandLineToCommaSeparatedValues` restricted to the first
`srcSize` elements, as the C call `CommandLineToCommaSeparatedValues(srcSize, src)`. -/
def commandLineToCommaSeparatedValues (l : List String) : String :=
  String.mk (joinCommaChars (l.map String.data))

/-- `pf_config_parse_comma_separated_list`: NULL input or an empty string
yields the empty sequence (count 0), anything else is split on commas. -/
def pf_config_parse_comma_separated_list (list : Option String) : List String :=
  match list with
  | none => []
  | some s => if s.data.length = 0 then [] else commandLineParseCommaSeparatedValues s

/-- `pf_config_get_uint16`: absent key with `required` fails; then the integer
value (0 for an absent key, per `IniFile_GetKeyValueInt`) must satisfy
`0 < val ≤ UINT16_MAX`. Returns the stored result on success. -/
def pf_config_get_uint16 (ini : IniStore) (sect key : String) (required : Bool) : Option Nat :=
  let strval := ini.getString sect key
  if strval = none ∧ required = true then none
  else
    let val := ini.getInt sect key
    if val ≤ 0 ∨ 65535 < val then none
    else some val.toNat

/-- `pf_config_get_uint32`: absent key with `required` fails; then the integer
value must satisfy `0 ≤ val ≤ INT32_MAX` (note: `val = 0` is accepted). -/
def pf_config_get_uint32 (ini : IniStore) (sect key : String) (required : Bool) : Option Nat :=
  let strval := ini.getString sect key
  if strval = none ∧ required = true then none
  else
    let val := ini.getInt sect key
    if val < 0 ∨ 2147483647 < val then none
    else some val.toNat

/-- Case-insensitive comparison against the literal `TRUE`, modelling
`_stricmp(str_value, "TRUE") == 0`: character-wise ASCII case folding, equal
exactly when the folded characters coincide. -/
def strCaseEqTRUE (s : String) : Bool := s.data.map Char.toLower = "true".data

/-- `pf_config_get_bool`: absent key returns the fallback; a value matching
`TRUE` case-insensitively is true; otherwise the integer reinterpretation is
compared with the sentinel `1` — any value whose integer form is not `1`
yields true, and `1` yields false. Never fails. -/
def pf_config_get_bool (ini : IniStore) (sect key : String) (fallback : Bool) : Bool :=
  match ini.getString sect key with
  | none => fallback
  | some str_value =>
    if strCaseEqTRUE str_value then true
    else if ini.getInt sect key ≠ 1 then true
    else false

/-- `pf_config_get_str`: returns the raw value or absence; the `required` flag
only selects the error log, it does not change the returned value. -/
def pf_config_get_str (ini : IniStore) (sect key : String) (required : Bool) : Option String :=
  ini.getString sect key

/-- The `proxyConfig` aggregate. Default field values model `calloc` zero
initialisation (NULL pointers become `none`/`[]`, numbers 0, booleans false).
The three list count fields are kept as separate fields, as in the C struct. -/
structure proxyConfig where
  Host : Option String := none
  Port : Nat := 0
  FixedTarget : Bool := false
  TargetHost : Option String := none
  TargetPort : Nat := 0
  GFX : Bool := false
  DisplayControl : Bool := false
  Clipboard : Bool := false
  AudioOutput : Bool := false
  RemoteApp : Bool := false
  Passthrough : List String := []
  PassthroughCount : Nat := 0
  Keyboard : Bool := false
  Mouse : Bool := false
  ServerTlsSecurity : Bool := false
  ServerRdpSecurity : Bool := false
  ClientTlsSecurity : Bool := false
  ClientNlaSecurity : Bool := false
  ClientRdpSecurity : Bool := false
  ClientAllowFallbackToTls : Bool := false
  TextOnly : Bool := false
  MaxTextLength : Nat := 0
  Modules : List String := []
  ModulesCount : Nat := 0
  RequiredPlugins : List String := []
  RequiredPluginsCount : Nat := 0
  DecodeGFX : Bool := false
  CertificateFile : Option String := none
  CertificateContent : Option String := none
  PrivateKeyFile : Option String := none
  PrivateKeyContent : Option String := none
  RdpKeyFile : Option String := none
  RdpKeyContent : Option String := none
deriving DecidableEq

/-- `pf_config_load_server`: absent `Server.Host` succeeds immediately; a
present host makes `Server.Port` required. -/
def pf_config_load_server (ini : IniStore) (config : proxyConfig) : Option proxyConfig :=
  match pf_config_get_str ini "Server" "Host" false with
  | none => some config
  | some host =>
    match pf_config_get_uint16 ini "Server" "Port" true with
    | none => none
    | some p => some { config with Host := some host, Port := p }

/-- `pf_config_load_target`: reads `FixedTarget`, then `Target.Port` with
`required := FixedTarget`, then `Target.Host`; an absent host fails
unconditionally (`if (!target_host) return FALSE`). -/
def pf_config_load_target (ini : IniStore) (config : proxyConfig) : Option proxyConfig :=
  match pf_config_get_uint16 ini "Target" "Port"
      (pf_config_get_bool ini "Target" "FixedTarget" false) with
  | none => none
  | some p =>
    match pf_config_get_str ini "Target" "Host"
        (pf_config_get_bool ini "Target" "FixedTarget" false) with
    | none => none
    | some target_host =>
      some { config with
        FixedTarget := pf_config_get_bool ini "Target" "FixedTarget" false,
        TargetPort := p,
        TargetHost := some target_host }

/-- `CHANNEL_NAME_LEN`. Modelled from the spec: the repository's public header
defining this constant is not under `src/`; the spec only states that
passthrough channel names are bounded by a fixed maximum length, so the
concrete value (7, the static virtual channel name length) is taken as a
fixed constant — no claim depends on the particular value. -/
def CHANNEL_NAME_LEN : Nat := 7

/-- `pf_config_load_channels`: five feature flags with their defaults, then the
`Passthrough` list, each name checked against `CHANNEL_NAME_LEN` (a longer
name fails the load). -/
def pf_config_load_channels (ini : IniStore) (config : proxyConfig) : Option proxyConfig :=
  if (pf_config_parse_comma_separated_list
        (pf_config_get_str ini "Channels" "Passthrough" false)).all
      (fun name => name.data.length ≤ CHANNEL_NAME_LEN) then
    some { config with
      GFX := pf_config_get_bool ini "Channels" "GFX" true,
      DisplayControl := pf_config_get_bool ini "Channels" "DisplayControl" true,
      Clipboard := pf_config_get_bool ini "Channels" "Clipboard" false,
      AudioOutput := pf_config_get_bool ini "Channels" "AudioOutput" true,
      RemoteApp := pf_config_get_bool ini "Channels" "RemoteApp" false,
      Passthrough := pf_config_parse_comma_separated_list
        (pf_config_get_str ini "Channels" "Passthrough" false),
      PassthroughCount := (pf_config_parse_comma_separated_list
        (pf_config_get_str ini "Channels" "Passthrough" false)).length }
  else
    none

/-- `pf_config_load_input`. -/
def pf_config_load_input (ini : IniStore) (config : proxyConfig) : Option proxyConfig :=
  some { config with
    Keyboard := pf_config_get_bool ini "Input" "Keyboard" true,
    Mouse := pf_config_get_bool ini "Input" "Mouse" true }

/-- `pf_config_load_security`. -/
def pf_config_load_security (ini : IniStore) (config : proxyConfig) : Option proxyConfig :=
  some { config with
    ServerTlsSecurity := pf_config_get_bool ini "Security" "ServerTlsSecurity" true,
    ServerRdpSecurity := pf_config_get_bool ini "Security" "ServerRdpSecurity" true,
    ClientTlsSecurity := pf_config_get_bool ini "Security" "ClientTlsSecurity" true,
    ClientNlaSecurity := pf_config_get_bool ini "Security" "ClientNlaSecurity" true,
    ClientRdpSecurity := pf_config_get_bool ini "Security" "ClientRdpSecurity" true,
    ClientAllowFallbackToTls := pf_config_get_bool ini "Security" "ClientAllowFallbackToTls" true }

/-- `pf_config_load_clipboard`: `TextOnly` flag, then the optional
`MaxTextLength` through `pf_config_get_uint32` with `required := FALSE`. -/
def pf_config_load_clipboard (ini : IniStore) (config : proxyConfig) : Option proxyConfig :=
  match pf_config_get_uint32 ini "Clipboard" "MaxTextLength" false with
  | none => none
  | some v =>
    some { config with
      TextOnly := pf_config_get_bool ini "Clipboard" "TextOnly" false,
      MaxTextLength := v }

/-- `pf_config_load_modules`: two comma-separated lists, never fails. -/
def pf_config_load_modules (ini : IniStore) (config : proxyConfig) : Option proxyConfig :=
  some { config with
    Modules := pf_config_parse_comma_separated_list (ini.getString "Plugins" "Modules"),
    ModulesCount :=
      (pf_config_parse_comma_separated_list (ini.getString "Plugins" "Modules")).length,
    RequiredPlugins := pf_config_parse_comma_separated_list (ini.getString "Plugins" "Required"),
    RequiredPluginsCount :=
      (pf_config_parse_comma_separated_list (ini.getString "Plugins" "Required")).length }

/-- `pf_config_load_gfx_settings`. -/
def pf_config_load_gfx_settings (ini : IniStore) (config : proxyConfig) : Option proxyConfig :=
  some { config with DecodeGFX := pf_config_get_bool ini "GFXSettings" "DecodeGFX" false }

/-- One credential triple of `pf_config_load_certificates`: the optional file
key, when present, must name an existing file; the optional content key, when
present, must be non-empty; with both keys present the triple fails (mutually
exclusive options — in the source this failure is reached after the existence
and emptiness checks, all of which also fail), and with both keys absent it
fails (required settings missing). Returns the accepted field value pair. -/
def loadCertTriple (ini : IniStore) (fs : FileExists) (fileKey contentKey : String) :
    Option (Option String × Option String) :=
  match pf_config_get_str ini "Certificates" fileKey false with
  | some f =>
    if fs f = false then none
    else
      match pf_config_get_str ini "Certificates" contentKey false with
      | some c =>
        if c.data.length < 1 then none
        else none
      | none => some (some f, none)
  | none =>
    match pf_config_get_str ini "Certificates" contentKey false with
    | some c =>
      if c.data.length < 1 then none
      else some (none, some c)
    | none => none

/-- `pf_config_load_certificates`: the three credential triples in order
(Certificate, PrivateKey, RdpKey); the first failing triple fails the load. -/
def pf_config_load_certificates (ini : IniStore) (fs : FileExists) (config : proxyConfig) :
    Option proxyConfig :=
  match loadCertTriple ini fs "CertificateFile" "CertificateContent" with
  | none => none
  | some (cf, cc) =>
    match loadCertTriple ini fs "PrivateKeyFile" "PrivateKeyContent" with
    | none => none
    | some (pkf, pkc) =>
      match loadCertTriple ini fs "RdpKeyFile" "RdpKeyContent" with
      | none => none
      | some (rkf, rkc) =>
        some { config with
          CertificateFile := cf, CertificateContent := cc,
          PrivateKeyFile := pkf, PrivateKeyContent := pkc,
          RdpKeyFile := rkf, RdpKeyContent := rkc }

/-- `server_config_load_ini`: the section loaders in the fixed order of the
source; any failure discards the in-progress object and yields no
configuration. -/
def server_config_load_ini (ini : IniStore) (fs : FileExists) : Option proxyConfig :=
  (pf_config_load_server ini {}).bind fun c₁ =>
  (pf_config_load_target ini c₁).bind fun c₂ =>
  (pf_config_load_channels ini c₂).bind fun c₃ =>
  (pf_config_load_input ini c₃).bind fun c₄ =>
  (pf_config_load_security ini c₄).bind fun c₅ =>
  (pf_config_load_modules ini c₅).bind fun c₆ =>
  (pf_config_load_clipboard ini c₆).bind fun c₇ =>
  (pf_config_load_gfx_settings ini c₇).bind fun c₈ =>
  pf_config_load_certificates ini fs c₈

/-- `pf_server_config_load_buffer`: the external `IniFile_ReadBuffer` parse is
abstracted as `parse`; a parse failure yields no configuration, otherwise the
assembler runs on the parsed store. -/
def pf_server_config_load_buffer (parse : String → Option IniStore) (fs : FileExists)
    (buffer : String) : Option proxyConfig :=
  match parse buffer with
  | none => none
  | some ini => server_config_load_ini ini fs

/-- `pf_server_config_load_file`: same shape over `IniFile_ReadFile`. -/
def pf_server_config_load_file (readIni : String → Option IniStore) (fs : FileExists)
    (path : String) : Option proxyConfig :=
  match readIni path with
  | none => none
  | some ini => server_config_load_ini ini fs

/-- One log line produced by `pf_server_config_print`; each constructor is one
of the `WLog_INFO` call shapes (`CONFIG_PRINT_SECTION` prints `"\t%s:"`,
`CONFIG_PRINT_*` print `"\t\t%s: %s"` with a rendered value, list items print
`"\t\t- %s"`, and the opening title is a bare line). -/
inductive PrintLine where
  | title (s : String)
  | sectionHeader (s : String)
  | kv (key value : String)
  | item (value : String)
deriving DecidableEq

/-- Rendering of a possibly NULL string through `%s` (glibc prints `(null)`). -/
def strOrNull : Option String → String
  | none => "(null)"
  | some s => s

/-- Rendering of `CONFIG_PRINT_BOOL`. -/
def boolStr (b : Bool) : String := if b then "TRUE" else "FALSE"

/-- Rendering of `CONFIG_PRINT_STR_CONTENT`: `config->key ? "set" : NULL`
printed through `%s` — only a presence indicator, never the content. -/
def contentIndicator (o : Option String) : String :=
  match o with
  | some _ => "set"
  | none => "(null)"

/-- `pf_server_config_print_list`: one item line for each of the first `count`
elements. -/
def pf_server_config_print_list (list : List String) (count : Nat) : List PrintLine :=
  (list.take count).map PrintLine.item

/-- `pf_server_config_print`: the exact sequence of log lines, with the Target
block only under `FixedTarget`, the passthrough block only for a non-zero
count, and the `MaxTextLength` line only for a non-zero value. -/
def pf_server_config_print (config : proxyConfig) : List PrintLine :=
  [PrintLine.title "Proxy configuration:",
   PrintLine.sectionHeader "Server",
   PrintLine.kv "Host" (strOrNull config.Host),
   PrintLine.kv "Port" (toString config.Port)]
  ++ (if config.FixedTarget then
       [PrintLine.sectionHeader "Target",
        PrintLine.kv "TargetHost" (strOrNull config.TargetHost),
        PrintLine.kv "TargetPort" (toString config.TargetPort)]
      else [])
  ++ [PrintLine.sectionHeader "Input",
      PrintLine.kv "Keyboard" (boolStr config.Keyboard),
      PrintLine.kv "Mouse" (boolStr config.Mouse),
      PrintLine.sectionHeader "Server Security",
      PrintLine.kv "ServerTlsSecurity" (boolStr config.ServerTlsSecurity),
      PrintLine.kv "ServerRdpSecurity" (boolStr config.ServerRdpSecurity),
      PrintLine.sectionHeader "Client Security",
      PrintLine.kv "ClientNlaSecurity" (boolStr config.ClientNlaSecurity),
      PrintLine.kv "ClientTlsSecurity" (boolStr config.ClientTlsSecurity),
      PrintLine.kv "ClientRdpSecurity" (boolStr config.ClientRdpSecurity),
      PrintLine.kv "ClientAllowFallbackToTls" (boolStr config.ClientAllowFallbackToTls),
      PrintLine.sectionHeader "Channels",
      PrintLine.kv "GFX" (boolStr config.GFX),
      PrintLine.kv "DisplayControl" (boolStr config.DisplayControl),
      PrintLine.kv "Clipboard" (boolStr config.Clipboard),
      PrintLine.kv "AudioOutput" (boolStr config.AudioOutput),
      PrintLine.kv "RemoteApp" (boolStr config.RemoteApp)]
  ++ (if config.PassthroughCount ≠ 0 then
        PrintLine.title "\tStatic Channels Proxy:"
          :: pf_server_config_print_list config.Passthrough config.PassthroughCount
      else [])
  ++ [PrintLine.sectionHeader "Clipboard",
      PrintLine.kv "TextOnly" (boolStr config.TextOnly)]
  ++ (if 0 < config.MaxTextLength then
        [PrintLine.kv "MaxTextLength" (toString config.MaxTextLength)]
      else [])
  ++ [PrintLine.sectionHeader "GFXSettings",
      PrintLine.kv "DecodeGFX" (boolStr config.DecodeGFX),
      PrintLine.sectionHeader "Plugins/Modules"]
  ++ (config.Modules.take config.ModulesCount).map (fun m => PrintLine.kv "Modules[x]" m)
  ++ [PrintLine.sectionHeader "Plugins/Required"]
  ++ (config.RequiredPlugins.take config.RequiredPluginsCount).map
       (fun m => PrintLine.kv "RequiredPlugins[x]" m)
  ++ [PrintLine.sectionHeader "Certificates",
      PrintLine.kv "CertificateFile" (strOrNull config.CertificateFile),
      PrintLine.kv "CertificateContent" (contentIndicator config.CertificateContent),
      PrintLine.kv "PrivateKeyFile" (strOrNull config.PrivateKeyFile),
      PrintLine.kv "PrivateKeyContent" (contentIndicator config.PrivateKeyContent),
      PrintLine.kv "RdpKeyFile" (strOrNull config.RdpKeyFile),
      PrintLine.kv "RdpKeyContent" (contentIndicator config.RdpKeyContent)]

/-- `pf_config_required_plugins_count`. -/
def pf_config_required_plugins_count (config : proxyConfig) : Nat :=
  config.RequiredPluginsCount

/-- `pf_config_required_plugin`: bounds-checked against the stored count,
out-of-range indices yield no value. -/
def pf_config_required_plugin (config : proxyConfig) (index : Nat) : Option String :=
  if config.RequiredPluginsCount ≤ index then none
  else config.RequiredPlugins.get? index

/-- `pf_config_modules_count`. -/
def pf_config_modules_count (config : proxyConfig) : Nat :=
  config.ModulesCount

/-- `pf_config_modules`: returns the stored modules array itself (NULL for an
empty list); there is no index parameter and no bounds check. -/
def pf_config_modules (config : proxyConfig) : List String :=
  config.Modules

/-- `pf_config_copy_string`: `_strdup` duplicates the value (or keeps NULL);
at the value level it is the identity. -/
def pf_config_copy_string (src : Option String) : Option String :=
  src

/-- `pf_config_copy_string_list`: a zero source count gives an empty list,
otherwise the first `srcSize` elements are joined into one comma-separated
string and re-split, the destination count being the number of parsed
tokens. -/
def pf_config_copy_string_list (src : List String) (srcSize : Nat) : List String × Nat :=
  if srcSize = 0 then ([], 0)
  else
    (commandLineParseCommaSeparatedValues (commandLineToCommaSeparatedValues (src.take srcSize)),
     (commandLineParseCommaSeparatedValues
        (commandLineToCommaSeparatedValues (src.take srcSize))).length)

/-- `pf_config_clone`: starts from the bitwise copy `*tmp = *config`, then
replaces every owned string and list field with its duplicated value. -/
def pf_config_clone (config : proxyConfig) : proxyConfig :=
  { config with
    Host := pf_config_copy_string config.Host,
    TargetHost := pf_config_copy_string config.TargetHost,
    Passthrough := (pf_config_copy_string_list config.Passthrough config.PassthroughCount).1,
    PassthroughCount := (pf_config_copy_string_list config.Passthrough config.PassthroughCount).2,
    Modules := (pf_config_copy_string_list config.Modules config.ModulesCount).1,
    ModulesCount := (pf_config_copy_string_list config.Modules config.ModulesCount).2,
    RequiredPlugins :=
      (pf_config_copy_string_list config.RequiredPlugins config.RequiredPluginsCount).1,
    RequiredPluginsCount :=
      (pf_config_copy_string_list config.RequiredPlugins config.RequiredPluginsCount).2,
    CertificateFile := pf_config_copy_string config.CertificateFile,
    CertificateContent := pf_config_copy_string config.CertificateContent,
    PrivateKeyFile := pf_config_copy_string config.PrivateKeyFile,
    PrivateKeyContent := pf_config_copy_string config.PrivateKeyContent,
    RdpKeyFile := pf_config_copy_string config.RdpKeyFile,
    RdpKeyContent := pf_config_copy_string config.RdpKeyContent }

/-- Well-formedness of one (list, stored count) pair of a configuration: the
count is the element count, and no element contains a comma (every list is
produced by splitting on commas, so this is an invariant of loading). -/
def wellFormedList (l : List String) (count : Nat) : Prop :=
  count = l.length ∧ ∀ s ∈ l, ',' ∉ s.data

/-- A valid configuration object: all three (list, count) pairs well formed. -/
def validConfig (c : proxyConfig) : Prop :=
  wellFormedList c.Passthrough c.PassthroughCount
  ∧ wellFormedList c.Modules c.ModulesCount
  ∧ wellFormedList c.RequiredPlugins c.RequiredPluginsCount

/-- Acceptance condition of one credential triple, in the vocabulary of the
source reader results: exactly one of the two keys is present, a present file
path names an existing file, a present content value is non-empty. -/
def certTripleOk (ini : IniStore) (fs : FileExists) (fileKey contentKey : String) : Prop :=
  match ini.getString "Certificates" fileKey, ini.getString "Certificates" contentKey with
  | some f, none => fs f = true
  | none, some c => 1 ≤ c.data.length
  | _, _ => False

/-- Replace each present credential content value by a fixed placeholder,
keeping its presence; used to state that the printer output depends on the
content fields only through their presence. -/
def maskContents (config : proxyConfig) : proxyConfig :=
  { config with
    CertificateContent := config.CertificateContent.map fun _ => "#",
    PrivateKeyContent := config.PrivateKeyContent.map fun _ => "#",
    RdpKeyContent := config.RdpKeyContent.map fun _ => "#" }

/-- A filesystem on which every path exists. -/
def allFiles : FileExists := fun _ => true

/-- Store for end-to-end scenario A of the spec: an INI holding only the
`[Certificates]` section with `CertificateFile`, `PrivateKeyFile` and
`RdpKeyFile`; every other key is absent, so `getInt` is 0 everywhere. -/
def scenarioAIni : IniStore where
  getString := fun sect key =>
    if sect = "Certificates" ∧ key = "CertificateFile" then some "/etc/proxy/server.crt"
    else if sect = "Certificates" ∧ key = "PrivateKeyFile" then some "/etc/proxy/server.key"
    else if sect = "Certificates" ∧ key = "RdpKeyFile" then some "/etc/proxy/rdp.key"
    else none
  getInt := fun _ _ => 0

/-- Scenario A extended with a valid `Target.Port`, to isolate the second
failure (`Target.Host` absent while `FixedTarget` is false). -/
def scenarioAPortIni : IniStore where
  getString := fun sect key =>
    if sect = "Target" ∧ key = "Port" then some "3389"
    else scenarioAIni.getString sect key
  getInt := fun sect key =>
    if sect = "Target" ∧ key = "Port" then 3389 else 0

/-- A fully valid store: fixed target with host and port, one passthrough
channel, certificate/key/rdp-key files. -/
def goodIni : IniStore where
  getString := fun sect key =>
    if sect = "Target" ∧ key = "FixedTarget" then some "TRUE"
    else if sect = "Target" ∧ key = "Port" then some "3389"
    else if sect = "Target" ∧ key = "Host" then some "10.0.0.1"
    else if sect = "Channels" ∧ key = "Passthrough" then some "rdpdr,rdpsnd"
    else if sect = "Certificates" ∧ key = "CertificateFile" then some "/etc/proxy/server.crt"
    else if sect = "Certificates" ∧ key = "PrivateKeyFile" then some "/etc/proxy/server.key"
    else if sect = "Certificates" ∧ key = "RdpKeyFile" then some "/etc/proxy/rdp.key"
    else none
  getInt := fun sect key =>
    if sect = "Target" ∧ key = "Port" then 3389 else 0

/-- A store with no keys at all. -/
def absentIni : IniStore where
  getString := fun _ _ => none
  getInt := fun _ _ => 0

/-- A store holding the single value `65535` under `Server.Port`. -/
def boundaryIni : IniStore where
  getString := fun sect key =>
    if sect = "Server" ∧ key = "Port" then some "65535" else none
  getInt := fun sect key =>
    if sect = "Server" ∧ key = "Port" then 65535 else 0

/-- A store holding the single value `0` under `Clipboard.MaxTextLength`. -/
def zeroValueIni : IniStore where
  getString := fun sect key =>
    if sect = "Clipboard" ∧ key = "MaxTextLength" then some "0" else none
  getInt := fun _ _ => 0

/-- A store with three boolean-candidate values: the strings `1`, `0` and
`maybe`, whose integer reinterpretations are 1, 0 and 0. -/
def boolSentinelIni : IniStore where
  getString := fun sect key =>
    if sect = "Bools" ∧ key = "one" then some "1"
    else if sect = "Bools" ∧ key = "zero" then some "0"
    else if sect = "Bools" ∧ key = "word" then some "maybe"
    else none
  getInt := fun sect key =>
    if sect = "Bools" ∧ key = "one" then 1 else 0

/-- A valid configuration with non-empty lists, for concrete clone checks. -/
def cloneDemo : proxyConfig :=
  { Host := some "0.0.0.0",
    Passthrough := ["rdpdr", "rdpsnd"], PassthroughCount := 2,
    Modules := ["demo"], ModulesCount := 1,
    RequiredPlugins := [], RequiredPluginsCount := 0 }

/-- A configuration whose stored modules count (1) undercounts the stored
modules array (2 elements); the C structure does not tie the two together. -/
def miscountedModules : proxyConfig :=
  { Modules := ["alpha", "beta"], ModulesCount := 1,
    RequiredPlugins := ["p0"], RequiredPluginsCount := 1 }

/-- Every token produced by `splitCommaChars` is free of commas. -/
theorem mem_splitCommaChars_no_comma :
    ∀ (l t : List Char), t ∈ splitCommaChars l → ',' ∉ t := by
  intro l
  induction l with
  | nil =>
    intro t ht
    simp [splitCommaChars] at ht
    simp [ht]
  | cons c rest ih =>
    intro t ht
    by_cases hc : c = ','
    · subst hc
      simp [splitCommaChars] at ht
      rcases ht with h | h
      · simp [h]
      · exact ih t h
    · rw [splitCommaChars, if_neg hc] at ht
      rcases hsplit : splitCommaChars rest with _ | ⟨t₀, ts⟩
      · rw [hsplit] at ht
        simp at ht
        subst ht
        simp only [List.mem_singleton]
        exact fun e => hc e.symm
      · rw [hsplit] at ht
        rcases List.mem_cons.mp ht with h | h
        · subst h
          intro hmem
          rcases List.mem_cons.mp hmem with h | h
          · exact hc h.symm
          · exact ih t₀ (hsplit ▸ List.mem_cons_self t₀ ts) h
        · exact ih t (hsplit ▸ List.mem_cons_of_mem t₀ h)

/-- `splitCommaChars` never yields the empty token list. -/
theorem splitCommaChars_ne_nil (l : List Char) : splitCommaChars l ≠ [] := by
  induction l with
  | nil => exact fun h => by simp [splitCommaChars] at h
  | cons c rest ih =>
    rw [splitCommaChars]
    by_cases hc : c = ','
    · simp [hc]
    · rw [if_neg hc]
      rcases hsplit : splitCommaChars rest with _ | ⟨t₀, ts⟩
      · exact absurd hsplit ih
      · simp

/-- A comma-free character list splits into the single token it is. -/
theorem splitCommaChars_of_no_comma (t : List Char) (h : ',' ∉ t) :
    splitCommaChars t = [t] := by
  induction t with
  | nil => rfl
  | cons c rest ih =>
    have hc : ¬ (c = ',') := fun e => h (e ▸ List.mem_cons_self c rest)
    have hr : ',' ∉ rest := fun e => h (List.mem_cons_of_mem _ e)
    rw [splitCommaChars, if_neg hc, ih hr]

/-- Splitting distributes over a comma that follows a comma-free token. -/
theorem splitCommaChars_append (t rest : List Char) (h : ',' ∉ t) :
    splitCommaChars (t ++ ',' :: rest) = t :: splitCommaChars rest := by
  induction t with
  | nil => simp [splitCommaChars]
  | cons c t ih =>
    have hc : ¬ (c = ',') := fun e => h (e ▸ List.mem_cons_self c t)
    have hr : ',' ∉ t := fun e => h (List.mem_cons_of_mem _ e)
    rw [List.cons_append, splitCommaChars, if_neg hc, ih hr]

/-- Splitting inverts joining for a non-empty family of comma-free tokens. -/
theorem splitCommaChars_joinCommaChars (ts : List (List Char)) (hne : ts ≠ [])
    (h : ∀ t ∈ ts, ',' ∉ t) : splitCommaChars (joinCommaChars ts) = ts := by
  induction ts with
  | nil => exact absurd rfl hne
  | cons t ts ih =>
    rcases ts with _ | ⟨t₂, ts₂⟩
    · simpa [joinCommaChars] using splitCommaChars_of_no_comma t (h t (by simp))
    · rw [joinCommaChars, splitCommaChars_append _ _ (h t (by simp)),
        ih (by simp) (fun u hu => h u (List.mem_cons_of_mem _ hu))]

/-- String-level roundtrip: re-parsing the joined comma-separated encoding of a
non-empty, comma-free string list gives the list back. -/
theorem parse_toCommaSeparatedValues (l : List String) (hne : l ≠ [])
    (h : ∀ s ∈ l, ',' ∉ s.data) :
    commandLineParseCommaSeparatedValues (commandLineToCommaSeparatedValues l) = l := by
  unfold commandLineParseCommaSeparatedValues commandLineToCommaSeparatedValues
  have hmapne : l.map String.data ≠ [] := by simpa using hne
  have hmapc : ∀ t ∈ l.map String.data, ',' ∉ t := by
    intro t ht
    rcases List.mem_map.mp ht with ⟨s, hs, rfl⟩
    exact h s hs
  rw [show (String.mk (joinCommaChars (l.map String.data))).data
        = joinCommaChars (l.map String.data) from rfl,
    splitCommaChars_joinCommaChars _ hmapne hmapc, List.map_map]
  have hid : String.mk ∘ String.data = id := rfl
  rw [hid, List.map_id]

/-- On a well-formed (list, count) pair, `pf_config_copy_string_list` is the
identity: the join/split roundtrip reproduces the elements and the count. -/
theorem pf_config_copy_string_list_eq (l : List String) (count : Nat)
    (h : wellFormedList l count) : pf_config_copy_string_list l count = (l, count) := by
  obtain ⟨hc, hnc⟩ := h
  subst hc
  unfold pf_config_copy_string_list
  by_cases h0 : l.length = 0
  · rw [if_pos h0, List.length_eq_zero.mp h0]
    simp [h0]
  · rw [if_neg h0]
    have hne : l ≠ [] := fun e => h0 (by simp [e])
    rw [List.take_length, parse_toCommaSeparatedValues l hne hnc]

/-- The lists parsed by `pf_config_parse_comma_separated_list` are comma-free. -/
theorem parse_comma_separated_list_no_comma (o : Option String) :
    ∀ s ∈ pf_config_parse_comma_separated_list o, ',' ∉ s.data := by
  intro s hs
  rcases o with _ | str
  · simp [pf_config_parse_comma_separated_list] at hs
  · simp only [pf_config_parse_comma_separated_list] at hs
    by_cases h0 : str.data.length = 0
    · rw [if_pos h0] at hs
      cases hs
    · rw [if_neg h0] at hs
      unfold commandLineParseCommaSeparatedValues at hs
      rcases List.mem_map.mp hs with ⟨t, ht, rfl⟩
      exact mem_splitCommaChars_no_comma str.data t ht

/-- The initial `calloc` object is valid. -/
theorem validConfig_empty : validConfig {} := by
  refine ⟨⟨rfl, ?_⟩, ⟨rfl, ?_⟩, ⟨rfl, ?_⟩⟩ <;> intro s hs <;> cases hs

/-- `pf_config_load_server` does not touch the list fields. -/
theorem validConfig_load_server {ini : IniStore} {c c' : proxyConfig}
    (h : pf_config_load_server ini c = some c') (hv : validConfig c) : validConfig c' := by
  unfold pf_config_load_server at h
  rcases hs : pf_config_get_str ini "Server" "Host" false with _ | host <;> rw [hs] at h
  · injection h with h
    subst h
    exact hv
  · rcases hp : pf_config_get_uint16 ini "Server" "Port" true with _ | p <;> rw [hp] at h
    · cases h
    · injection h with h
      subst h
      exact hv

/-- `pf_config_load_target` does not touch the list fields. -/
theorem validConfig_load_target {ini : IniStore} {c c' : proxyConfig}
    (h : pf_config_load_target ini c = some c') (hv : validConfig c) : validConfig c' := by
  unfold pf_config_load_target at h
  rcases hp : pf_config_get_uint16 ini "Target" "Port"
      (pf_config_get_bool ini "Target" "FixedTarget" false) with _ | p <;> rw [hp] at h
  · cases h
  · rcases hh : pf_config_get_str ini "Target" "Host"
        (pf_config_get_bool ini "Target" "FixedTarget" false) with _ | host <;> rw [hh] at h
    · cases h
    · injection h with h
      subst h
      exact hv

/-- `pf_config_load_channels` establishes a well-formed passthrough pair and
keeps the other two list pairs. -/
theorem validConfig_load_channels {ini : IniStore} {c c' : proxyConfig}
    (h : pf_config_load_channels ini c = some c') (hv : validConfig c) : validConfig c' := by
  unfold pf_config_load_channels at h
  by_cases hall : (pf_config_parse_comma_separated_list
      (pf_config_get_str ini "Channels" "Passthrough" false)).all
        (fun name => name.data.length ≤ CHANNEL_NAME_LEN) = true
  · rw [if_pos hall] at h
    injection h with h
    subst h
    exact ⟨⟨rfl, parse_comma_separated_list_no_comma _⟩, hv.2.1, hv.2.2⟩
  · rw [if_neg hall] at h
    cases h

/-- `pf_config_load_input` does not touch the list fields. -/
theorem validConfig_load_input {ini : IniStore} {c c' : proxyConfig}
    (h : pf_config_load_input ini c = some c') (hv : validConfig c) : validConfig c' := by
  unfold pf_config_load_input at h
  injection h with h
  subst h
  exact hv

/-- `pf_config_load_security` does not touch the list fields. -/
theorem validConfig_load_security {ini : IniStore} {c c' : proxyConfig}
    (h : pf_config_load_security ini c = some c') (hv : validConfig c) : validConfig c' := by
  unfold pf_config_load_security at h
  injection h with h
  subst h
  exact hv

/-- `pf_config_load_modules` establishes well-formed module lists and keeps the
passthrough pair. -/
theorem validConfig_load_modules {ini : IniStore} {c c' : proxyConfig}
    (h : pf_config_load_modules ini c = some c') (hv : validConfig c) : validConfig c' := by
  unfold pf_config_load_modules at h
  injection h with h
  subst h
  exact ⟨hv.1, ⟨rfl, parse_comma_separated_list_no_comma _⟩,
    ⟨rfl, parse_comma_separated_list_no_comma _⟩⟩

/-- `pf_config_load_clipboard` does not touch the list fields. -/
theorem validConfig_load_clipboard {ini : IniStore} {c c' : proxyConfig}
    (h : pf_config_load_clipboard ini c = some c') (hv : validConfig c) : validConfig c' := by
  unfold pf_config_load_clipboard at h
  rcases hm : pf_config_get_uint32 ini "Clipboard" "MaxTextLength" false with _ | v <;>
    rw [hm] at h
  · cases h
  · injection h with h
    subst h
    exact hv

/-- `pf_config_load_gfx_settings` does not touch the list fields. -/
theorem validConfig_load_gfx_settings {ini : IniStore} {c c' : proxyConfig}
    (h : pf_config_load_gfx_settings ini c = some c') (hv : validConfig c) : validConfig c' := by
  unfold pf_config_load_gfx_settings at h
  injection h with h
  subst h
  exact hv

/-- `pf_config_load_certificates` does not touch the list fields. -/
theorem validConfig_load_certificates {ini : IniStore} {fs : FileExists} {c c' : proxyConfig}
    (h : pf_config_load_certificates ini fs c = some c') (hv : validConfig c) : validConfig c' := by
  unfold pf_config_load_certificates at h
  rcases h1 : loadCertTriple ini fs "CertificateFile" "CertificateContent" with _ | ⟨cf, cc⟩ <;>
    rw [h1] at h
  · cases h
  · rcases h2 : loadCertTriple ini fs "PrivateKeyFile" "PrivateKeyContent" with _ | ⟨pkf, pkc⟩ <;>
      rw [h2] at h
    · cases h
    · rcases h3 : loadCertTriple ini fs "RdpKeyFile" "RdpKeyContent" with _ | ⟨rkf, rkc⟩ <;>
        rw [h3] at h
      · cases h
      · injection h with h
        subst h
        exact hv

/-- Every configuration produced by the assembler is valid. -/
theorem validConfig_load_ini {ini : IniStore} {fs : FileExists} {c : proxyConfig}
    (h : server_config_load_ini ini fs = some c) : validConfig c := by
  simp only [server_config_load_ini, Option.bind_eq_some] at h
  obtain ⟨c₁, e₁, c₂, e₂, c₃, e₃, c₄, e₄, c₅, e₅, c₆, e₆, c₇, e₇, c₈, e₈, e₉⟩ := h
  exact validConfig_load_certificates e₉ (validConfig_load_gfx_settings e₈
    (validConfig_load_clipboard e₇ (validConfig_load_modules e₆ (validConfig_load_security e₅
      (validConfig_load_input e₄ (validConfig_load_channels e₃ (validConfig_load_target e₂
        (validConfig_load_server e₁ validConfig_empty))))))))

/-- One credential triple is accepted exactly under `certTripleOk`. -/
theorem loadCertTriple_isSome_iff (ini : IniStore) (fs : FileExists) (fileKey contentKey : String) :
    (loadCertTriple ini fs fileKey contentKey).isSome = true
      ↔ certTripleOk ini fs fileKey contentKey := by
  unfold loadCertTriple certTripleOk pf_config_get_str
  rcases h1 : ini.getString "Certificates" fileKey with _ | f <;>
    rcases h2 : ini.getString "Certificates" contentKey with _ | c
  · simp
  · by_cases hc : c.data.length < 1 <;> simp [hc] <;> omega
  · cases hf : fs f <;> simp [hf]
  · cases hf : fs f <;> by_cases hc : c.data.length < 1 <;> simp [hf, hc]

/-- A line that differs from every image of `f` is not among the first `n`
mapped elements. -/
theorem notMem_take_map {α β : Type} (b : β) (f : α → β) (l : List α) (n : Nat)
    (h : ∀ a, b ≠ f a) : b ∉ (List.map f l).take n := by
  intro hb
  rcases List.mem_map.mp (List.take_subset n _ hb) with ⟨a, _, heq⟩
  exact h a heq.symm

/-- C1: the spec's end-to-end scenario A — an INI holding only the
`[Certificates]` section with the three file keys naming existing files —
is claimed to load successfully, absence of `Target.Host`/`Target.Port` being
harmless while `FixedTarget` is false/absent. The code diverges: with the key
absent, `IniFile_GetKeyValueInt` yields 0 and `pf_config_get_uint16` fails its
`val <= 0` range check even though `required` is FALSE, and
`pf_config_load_target` also fails on an absent `Target.Host` regardless of
`FixedTarget`; so the whole load returns no configuration, for scenario A and
also with a valid `Target.Port` supplied. -/
theorem c1_scenario_a_load_fails :
    pf_config_get_uint16 scenarioAIni "Target" "Port" false = none
    ∧ pf_config_load_target scenarioAIni {} = none
    ∧ server_config_load_ini scenarioAIni allFiles = none
    ∧ server_config_load_ini scenarioAPortIni allFiles = none := by
  refine ⟨rfl, rfl, rfl, rfl⟩

/-- C3 counterexample: `read_uint32` is claimed to reject the value 0, but on
a present `Clipboard.MaxTextLength` whose value is the string `0` (integer
reinterpretation 0) `pf_config_get_uint32` succeeds and returns 0 — the source
range check is `val < 0 || val > INT32_MAX`, which admits 0. -/
theorem c3_uint32_accepts_zero :
    zeroValueIni.getString "Clipboard" "MaxTextLength" = some "0"
    ∧ zeroValueIni.getInt "Clipboard" "MaxTextLength" = 0
    ∧ pf_config_get_uint32 zeroValueIni "Clipboard" "MaxTextLength" true = some 0 := by
  refine ⟨rfl, rfl, rfl⟩

/-- C3 (amended): for every section and key with a present value,
`pf_config_get_uint16` succeeds exactly on integer reinterpretations in
`[1, 65535]` (so it rejects 0, negatives and over-range values and accepts
both boundaries), and `pf_config_get_uint32` succeeds exactly on
`[0, 2^31 − 1]` (rejecting negatives and over-range values but accepting 0). -/
theorem c3_scalar_reader_ranges :
    ∀ (ini : IniStore) (sect key : String) (required : Bool) (sv : String),
    ini.getString sect key = some sv →
    ((pf_config_get_uint16 ini sect key required).isSome = true ↔
      1 ≤ ini.getInt sect key ∧ ini.getInt sect key ≤ 65535)
    ∧ ((pf_config_get_uint32 ini sect key required).isSome = true ↔
      0 ≤ ini.getInt sect key ∧ ini.getInt sect key ≤ 2147483647) := by
  intro ini sect key required sv h
  constructor
  · unfold pf_config_get_uint16
    rw [if_neg (by simp [h])]
    by_cases hc : ini.getInt sect key ≤ 0 ∨ 65535 < ini.getInt sect key
    · rw [if_pos hc]
      simp only [Option.isSome_none, Bool.false_eq_true, false_iff]
      omega
    · rw [if_neg hc]
      simp only [Option.isSome_some, true_iff]
      omega
  · unfold pf_config_get_uint32
    rw [if_neg (by simp [h])]
    by_cases hc : ini.getInt sect key < 0 ∨ 2147483647 < ini.getInt sect key
    · rw [if_pos hc]
      simp only [Option.isSome_none, Bool.false_eq_true, false_iff]
      omega
    · rw [if_neg hc]
      simp only [Option.isSome_some, true_iff]
      omega

/-- C3 witness: the 16-bit boundary value 65535, present under `Server.Port`,
is accepted. -/
theorem c3_scalar_reader_ranges_witness :
    (pf_config_get_uint16 boundaryIni "Server" "Port" true).isSome = true :=
  (c3_scalar_reader_ranges boundaryIni "Server" "Port" true "65535" rfl).1.mpr (by decide)

/-- C4: the boolean reader is total and never fails — an absent key returns
the given fallback for every (section, key, fallback) combination; a present
value matching `TRUE` case-insensitively yields true; and a present value
whose integer reinterpretation differs from the sentinel 1 also yields true
(degrading unparseable values to true, not to an error). -/
theorem c4_bool_reader_total :
    ∀ (ini : IniStore) (sect key : String) (fallback : Bool),
    (ini.getString sect key = none → pf_config_get_bool ini sect key fallback = fallback)
    ∧ (∀ v, ini.getString sect key = some v → strCaseEqTRUE v = true →
        pf_config_get_bool ini sect key fallback = true)
    ∧ (∀ v, ini.getString sect key = some v → strCaseEqTRUE v = false →
        ini.getInt sect key ≠ 1 → pf_config_get_bool ini sect key fallback = true) := by
  intro ini sect key fallback
  refine ⟨fun h => ?_, fun v h ht => ?_, fun v h ht hn => ?_⟩
  · simp [pf_config_get_bool, h]
  · simp [pf_config_get_bool, h, ht]
  · simp [pf_config_get_bool, h, ht, hn]

/-- C4 witness: with every key absent, the reader returns the fallback. -/
theorem c4_bool_reader_total_witness :
    pf_config_get_bool absentIni "Channels" "GFX" true = true :=
  (c4_bool_reader_total absentIni "Channels" "GFX" true).1 rfl

/-- C10: for every present value that does not match `TRUE`
case-insensitively, the boolean reader returns false exactly when the value's
integer reinterpretation equals 1, and true in every other case, regardless of
the fallback argument. -/
theorem c10_bool_sentinel :
    ∀ (ini : IniStore) (sect key : String) (fallback : Bool) (v : String),
    ini.getString sect key = some v → strCaseEqTRUE v = false →
    (pf_config_get_bool ini sect key fallback = false ↔ ini.getInt sect key = 1) := by
  intro ini sect key fallback v h ht
  by_cases hn : ini.getInt sect key = 1
  · simp [pf_config_get_bool, h, ht, hn]
  · simp [pf_config_get_bool, h, ht, hn]

/-- C10 witness: the present string `1` (integer form 1) yields false even
with fallback true; the strings `0` and `maybe` (integer form 0) yield true. -/
theorem c10_bool_sentinel_witness :
    pf_config_get_bool boolSentinelIni "Bools" "one" true = false
    ∧ pf_config_get_bool boolSentinelIni "Bools" "zero" false = true
    ∧ pf_config_get_bool boolSentinelIni "Bools" "word" false = true := by
  refine ⟨(c10_bool_sentinel boolSentinelIni "Bools" "one" true "1" rfl (by decide)).mpr rfl,
    rfl, rfl⟩

/-- C2: a credential triple is accepted exactly when one of the two keys is
present with the file existing (file variant) or the content non-empty
(content variant); both present, both absent, a missing file or empty content
each fail the triple, and `pf_config_load_certificates` succeeds exactly when
all three triples, taken independently, are accepted — so the first failing
triple fails the whole load. -/
theorem c2_certificates_triples :
    ∀ (ini : IniStore) (fs : FileExists) (config : proxyConfig),
    (pf_config_load_certificates ini fs config).isSome = true ↔
      (certTripleOk ini fs "CertificateFile" "CertificateContent"
       ∧ certTripleOk ini fs "PrivateKeyFile" "PrivateKeyContent"
       ∧ certTripleOk ini fs "RdpKeyFile" "RdpKeyContent") := by
  intro ini fs config
  rw [← loadCertTriple_isSome_iff ini fs "CertificateFile" "CertificateContent",
    ← loadCertTriple_isSome_iff ini fs "PrivateKeyFile" "PrivateKeyContent",
    ← loadCertTriple_isSome_iff ini fs "RdpKeyFile" "RdpKeyContent"]
  unfold pf_config_load_certificates
  rcases loadCertTriple ini fs "CertificateFile" "CertificateContent" with _ | ⟨cf, cc⟩ <;>
    rcases loadCertTriple ini fs "PrivateKeyFile" "PrivateKeyContent" with _ | ⟨pkf, pkc⟩ <;>
      rcases loadCertTriple ini fs "RdpKeyFile" "RdpKeyContent" with _ | ⟨rkf, rkc⟩ <;>
        simp

/-- C2 witness: on the fully valid store (file variants only, all existing)
the characterization yields acceptance of all three triples. -/
theorem c2_certificates_triples_witness :
    certTripleOk goodIni allFiles "CertificateFile" "CertificateContent"
    ∧ certTripleOk goodIni allFiles "PrivateKeyFile" "PrivateKeyContent"
    ∧ certTripleOk goodIni allFiles "RdpKeyFile" "RdpKeyContent" :=
  (c2_certificates_triples goodIni allFiles {}).mp rfl

/-- C5: loading is atomic — whenever the assembler returns a configuration,
every section loader succeeded in the fixed order (Server, Target, Channels,
Input, Security, Plugins/Modules, Clipboard, GFX Settings, Certificates) and
the returned object is the final one; and both entry points return no
configuration when the underlying INI parse fails, otherwise exactly the
assembler's result — never a half-built object. -/
theorem c5_load_atomic :
    ∀ (ini : IniStore) (fs : FileExists) (parse readIni : String → Option IniStore)
      (buffer path : String),
    (∀ c, server_config_load_ini ini fs = some c →
      ∃ c₁ c₂ c₃ c₄ c₅ c₆ c₇ c₈,
        pf_config_load_server ini {} = some c₁
        ∧ pf_config_load_target ini c₁ = some c₂
        ∧ pf_config_load_channels ini c₂ = some c₃
        ∧ pf_config_load_input ini c₃ = some c₄
        ∧ pf_config_load_security ini c₄ = some c₅
        ∧ pf_config_load_modules ini c₅ = some c₆
        ∧ pf_config_load_clipboard ini c₆ = some c₇
        ∧ pf_config_load_gfx_settings ini c₇ = some c₈
        ∧ pf_config_load_certificates ini fs c₈ = some c)
    ∧ (parse buffer = none → pf_server_config_load_buffer parse fs buffer = none)
    ∧ (∀ ini', parse buffer = some ini' →
        pf_server_config_load_buffer parse fs buffer = server_config_load_ini ini' fs)
    ∧ (readIni path = none → pf_server_config_load_file readIni fs path = none)
    ∧ (∀ ini', readIni path = some ini' →
        pf_server_config_load_file readIni fs path = server_config_load_ini ini' fs) := by
  intro ini fs parse readIni buffer path
  refine ⟨fun c h => ?_, fun h => ?_, fun ini' h => ?_, fun h => ?_, fun ini' h => ?_⟩
  · simp only [server_config_load_ini, Option.bind_eq_some] at h
    obtain ⟨c₁, e₁, c₂, e₂, c₃, e₃, c₄, e₄, c₅, e₅, c₆, e₆, c₇, e₇, c₈, e₈, e₉⟩ := h
    exact ⟨c₁, c₂, c₃, c₄, c₅, c₆, c₇, c₈, e₁, e₂, e₃, e₄, e₅, e₆, e₇, e₈, e₉⟩
  · simp [pf_server_config_load_buffer, h]
  · simp [pf_server_config_load_buffer, h]
  · simp [pf_server_config_load_file, h]
  · simp [pf_server_config_load_file, h]

/-- C5 witness: a failing parse yields no configuration from the buffer entry
point, and a successful parse yields exactly the assembler's result. -/
theorem c5_load_atomic_witness :
    pf_server_config_load_buffer (fun _ => none) allFiles "x" = none
    ∧ pf_server_config_load_buffer (fun _ => some goodIni) allFiles "x"
        = server_config_load_ini goodIni allFiles :=
  ⟨(c5_load_atomic goodIni allFiles (fun _ => none) (fun _ => none) "x" "p").2.1 rfl,
   (c5_load_atomic goodIni allFiles (fun _ => some goodIni) (fun _ => none) "x" "p").2.2.1
     goodIni rfl⟩

/-- C6: on every valid configuration object (well-formed list/count pairs with
comma-free elements — an invariant established by loading, as the second
conjunct shows), the clone is value-equal to the source in every scalar,
string and list field, counts included; the source, being a pure value, is
unchanged. -/
theorem c6_clone_value_equal :
    (∀ c : proxyConfig, validConfig c → pf_config_clone c = c)
    ∧ ∀ (ini : IniStore) (fs : FileExists) (c : proxyConfig),
        server_config_load_ini ini fs = some c → validConfig c := by
  constructor
  · intro c hv
    obtain ⟨h₁, h₂, h₃⟩ := hv
    unfold pf_config_clone
    rw [pf_config_copy_string_list_eq _ _ h₁, pf_config_copy_string_list_eq _ _ h₂,
      pf_config_copy_string_list_eq _ _ h₃]
    rfl
  · intro ini fs c h
    exact validConfig_load_ini h

/-- C6 witness: a concrete valid configuration with non-empty lists clones to
an equal value. -/
theorem c6_clone_value_equal_witness :
    validConfig cloneDemo ∧ pf_config_clone cloneDemo = cloneDemo := by
  have hv : validConfig cloneDemo := by
    refine ⟨⟨rfl, ?_⟩, ⟨rfl, ?_⟩, ⟨rfl, ?_⟩⟩ <;> decide
  exact ⟨hv, c6_clone_value_equal.1 cloneDemo hv⟩

/-- C7: the channels loader succeeds exactly when every parsed passthrough
channel name has length at most `CHANNEL_NAME_LEN` — a name of exactly the
limit is accepted, any longer name is a hard load failure. -/
theorem c7_passthrough_name_length :
    ∀ (ini : IniStore) (config : proxyConfig),
    (pf_config_load_channels ini config).isSome = true ↔
      ∀ name ∈ pf_config_parse_comma_separated_list
          (pf_config_get_str ini "Channels" "Passthrough" false),
        name.data.length ≤ CHANNEL_NAME_LEN := by
  intro ini config
  unfold pf_config_load_channels
  by_cases hall : (pf_config_parse_comma_separated_list
      (pf_config_get_str ini "Channels" "Passthrough" false)).all
        (fun name => name.data.length ≤ CHANNEL_NAME_LEN) = true
  · rw [if_pos hall]
    simp only [Option.isSome_some, true_iff]
    intro name hname
    exact of_decide_eq_true (List.all_eq_true.mp hall name hname)
  · rw [if_neg hall]
    simp only [Option.isSome_none, Bool.false_eq_true, false_iff]
    intro hforall
    exact hall (List.all_eq_true.mpr fun name hname => decide_eq_true (hforall name hname))

/-- C7 witness: the list `rdpdr,rdpsnd` (names of length 5 and 6, within the
limit) loads. -/
theorem c7_passthrough_name_length_witness :
    (pf_config_load_channels goodIni {}).isSome = true :=
  (c7_passthrough_name_length goodIni {}).mpr (by decide)

/-- C9: the printer (a total function on configurations) omits the Target
block unless `FixedTarget` is set, omits the `MaxTextLength` line when the
value is zero and prints it when non-zero, omits the passthrough block when
the count is zero, and its output depends on each credential content field
only through its presence — the content string itself is never printed. -/
theorem c9_printer_conditionals :
    ∀ config : proxyConfig,
    (config.FixedTarget = false →
      PrintLine.sectionHeader "Target" ∉ pf_server_config_print config)
    ∧ (config.FixedTarget = true →
      PrintLine.sectionHeader "Target" ∈ pf_server_config_print config)
    ∧ (config.MaxTextLength = 0 →
      ∀ v, PrintLine.kv "MaxTextLength" v ∉ pf_server_config_print config)
    ∧ (config.MaxTextLength ≠ 0 →
      PrintLine.kv "MaxTextLength" (toString config.MaxTextLength)
        ∈ pf_server_config_print config)
    ∧ (config.PassthroughCount = 0 →
      PrintLine.title "\tStatic Channels Proxy:" ∉ pf_server_config_print config
      ∧ ∀ v, PrintLine.item v ∉ pf_server_config_print config)
    ∧ pf_server_config_print (maskContents config) = pf_server_config_print config := by
  intro config
  have hmask : ∀ o : Option String, contentIndicator (o.map fun _ => "#") = contentIndicator o :=
    fun o => by cases o <;> rfl
  have hkvs : ∀ (k v k' : String) (l : List String) (n : Nat),
      k ≠ k' → PrintLine.kv k v ∉ (List.map (fun m => PrintLine.kv k' m) l).take n :=
    fun k v k' l n hk => notMem_take_map _ _ l n (fun a => by simp [hk])
  have hsec : ∀ (s k : String) (l : List String) (n : Nat),
      PrintLine.sectionHeader s ∉ (List.map (fun m => PrintLine.kv k m) l).take n :=
    fun s k l n => notMem_take_map _ _ l n (fun a => by simp)
  have hsecIt : ∀ (s : String) (l : List String) (n : Nat),
      PrintLine.sectionHeader s ∉ (List.map PrintLine.item l).take n :=
    fun s l n => notMem_take_map _ _ l n (fun a => by simp)
  have hkvIt : ∀ (k v : String) (l : List String) (n : Nat),
      PrintLine.kv k v ∉ (List.map PrintLine.item l).take n :=
    fun k v l n => notMem_take_map _ _ l n (fun a => by simp)
  have hti : ∀ (s k : String) (l : List String) (n : Nat),
      PrintLine.title s ∉ (List.map (fun m => PrintLine.kv k m) l).take n :=
    fun s k l n => notMem_take_map _ _ l n (fun a => by simp)
  have hit : ∀ (v k : String) (l : List String) (n : Nat),
      PrintLine.item v ∉ (List.map (fun m => PrintLine.kv k m) l).take n :=
    fun v k l n => notMem_take_map _ _ l n (fun a => by simp)
  refine ⟨fun hf => ?_, fun hf => ?_, fun hm v => ?_, fun hm => ?_, fun hp => ⟨?_, fun v => ?_⟩, ?_⟩
  · by_cases hp : config.PassthroughCount = 0 <;>
      by_cases hm : 0 < config.MaxTextLength <;>
        simp [pf_server_config_print, pf_server_config_print_list, hf, hp, hm, hsec, hsecIt]
  · simp [pf_server_config_print, hf]
  · by_cases hf : config.FixedTarget <;>
      by_cases hp : config.PassthroughCount = 0 <;>
        simp [pf_server_config_print, pf_server_config_print_list, hf, hp, hm,
          hkvs _ _ _ _ _ (show ("MaxTextLength" : String) ≠ "Modules[x]" by decide),
          hkvs _ _ _ _ _ (show ("MaxTextLength" : String) ≠ "RequiredPlugins[x]" by decide),
          hkvIt]
  · by_cases hf : config.FixedTarget <;>
      by_cases hp : config.PassthroughCount = 0 <;>
        simp [pf_server_config_print, pf_server_config_print_list, hf, hp, Nat.pos_of_ne_zero hm]
  · by_cases hf : config.FixedTarget <;>
      by_cases hm : 0 < config.MaxTextLength <;>
        simp [pf_server_config_print, pf_server_config_print_list, hf, hp, hm, hti]
  · by_cases hf : config.FixedTarget <;>
      by_cases hm : 0 < config.MaxTextLength <;>
        simp [pf_server_config_print, pf_server_config_print_list, hf, hp, hm, hit]
  · simp [pf_server_config_print, maskContents, hmask]

/-- C9 witness: on the default configuration (fixed target unset) no Target
header is printed. -/
theorem c9_printer_conditionals_witness :
    PrintLine.sectionHeader "Target" ∉ pf_server_config_print {} :=
  (c9_printer_conditionals {}).1 rfl

/-- C8 counterexample: the claim asserts that for every configuration object,
indexed access into the modules list through the query helpers is
bounds-checked against the stored count. The modules helper has no index and
no check: on a configuration whose stored `ModulesCount` is 1 while the stored
array holds 2 entries, the helper exposes the whole array, and reading it at
the out-of-range index 1 (≥ the count) yields the value `beta`, not "no
value". -/
theorem c8_modules_not_bounds_checked :
    pf_config_modules_count miscountedModules = 1
    ∧ (pf_config_modules miscountedModules).get? 1 = some "beta" := by
  refine ⟨rfl, rfl⟩

/-- C8 (amended): indexed access into the required-plugins list is
bounds-checked — an index at or beyond the stored count returns no value —
and the two count helpers return the stored counts; the modules helper is not
an indexed accessor: it returns the entire stored modules list. -/
theorem c8_query_helpers :
    ∀ (config : proxyConfig) (index : Nat),
    (pf_config_required_plugins_count config ≤ index →
      pf_config_required_plugin config index = none)
    ∧ pf_config_required_plugins_count config = config.RequiredPluginsCount
    ∧ pf_config_modules_count config = config.ModulesCount
    ∧ pf_config_modules config = config.Modules := by
  intro config index
  refine ⟨fun h => ?_, rfl, rfl, rfl⟩
  unfold pf_config_required_plugin
  rw [if_pos (show config.RequiredPluginsCount ≤ index from h)]

/-- C8 witness: an out-of-range index into the required-plugins list of a
concrete configuration returns no value. -/
theorem c8_query_helpers_witness :
    pf_config_required_plugin miscountedModules 1 = none :=
  (c8_query_helpers miscountedModules 1).1 (by decide)

end PfConfig
